import Mathlib

/-!
Verification of the Fyyur venue/artist/show directory application.

The development shallowly embeds the data model of `src/models.py` and the
route operations of `src/app.py`. Rows of the three tables are Lean
structures, the database is three lists of rows, and each route handler is a
pure function from the database (plus the request's data and the current
time) to the updated database and the rendered response. Python exceptions
are modelled with `Except`; a fault a handler does not catch is an
`Except.error` that the global 500 handler turns into the 500 page.

The WTForms form schemas live in `forms.py`, which is not part of the staged
sources; the definitions in the Forms section are modelled from the
specification's field catalog (spec section 4.2) and are marked as such.
-/

namespace Fyyur

/-- A row of the `venues` table (src/models.py lines 4-22). Optional text
columns are plain strings; a NULL/absent optional value is the empty string. -/
structure VenueRow where
  id : Nat
  name : String
  genres : List String
  address : String
  city : String
  state : String
  phone : String
  website : String
  facebook_link : String
  seeking_talent : Bool
  seeking_description : String
  image_link : String
deriving Repr, DecidableEq

/-- A row of the `artists` table (src/models.py lines 25-42). -/
structure ArtistRow where
  id : Nat
  name : String
  genres : List String
  city : String
  state : String
  phone : String
  website : String
  facebook_link : String
  seeking_venue : Bool
  seeking_description : String
  image_link : String
deriving Repr, DecidableEq

/-- A row of the `Show` table (src/models.py lines 45-51): a show links one
venue and one artist at one start time. Timestamps are naturals. -/
structure ShowRow where
  id : Nat
  venue_id : Nat
  artist_id : Nat
  start_time : Nat
deriving Repr, DecidableEq

/-- The database: the three tables. -/
structure DB where
  venues : List VenueRow
  artists : List ArtistRow
  shows : List ShowRow
deriving Repr, DecidableEq

/-- db.session.get(Venue, venue_id): the venue with the given primary key. -/
def getVenue (db : DB) (venue_id : Nat) : Option VenueRow :=
  db.venues.find? fun v => v.id = venue_id

/-- db.session.get(Artist, artist_id). -/
def getArtist (db : DB) (artist_id : Nat) : Option ArtistRow :=
  db.artists.find? fun a => a.id = artist_id

/-- venue.shows: the relationship of src/models.py line 19 - the shows whose
venue_id is the venue's id. -/
def venueShows (db : DB) (v : VenueRow) : List ShowRow :=
  db.shows.filter fun s => s.venue_id = v.id

/-- artist.shows: the relationship of src/models.py line 39. -/
def artistShows (db : DB) (a : ArtistRow) : List ShowRow :=
  db.shows.filter fun s => s.artist_id = a.id

/-- The attribute names the Venue model class defines (src/models.py lines
7-22): its columns, the shows relationship, and repr. Python resolves
venue.NAME against this set; any other name raises AttributeError. -/
def venueModelAttrs : List String :=
  ["id", "name", "genres", "address", "city", "state", "phone", "website",
   "facebook_link", "seeking_talent", "seeking_description", "image_link",
   "shows", "__repr__"]

/-- Python exceptions the routes can raise or catch. -/
inductive PyErr where
  | valueError
  | integrityError
  | attributeError
deriving Repr, DecidableEq

/-- Resolving the attribute `attr` on a Show instance when the route expects
the related artist. The Show model's relationship attributes are the backrefs
"venue" and "artist" (src/models.py lines 19 and 39); for any other name -
in particular the capitalised "Artist" that src/app.py line 119 reads -
Python raises AttributeError, modelled here as `none`. -/
def showAttrArtist (db : DB) (s : ShowRow) (attr : String) : Option ArtistRow :=
  if attr = "artist" then getArtist db s.artist_id else none

/-- Resolving the attribute `attr` on a Show instance when the route expects
the related venue; the backref is "venue", while src/app.py line 248 reads
the capitalised "Venue". -/
def showAttrVenue (db : DB) (s : ShowRow) (attr : String) : Option VenueRow :=
  if attr = "venue" then getVenue db s.venue_id else none

/-- One show of a venue detail page: src/app.py lines 117-122. The rendered
start_time keeps the raw timestamp; the strftime text rendering is an
external concern no claim depends on. -/
structure VenueShowEntry where
  artist_id : Nat
  artist_name : String
  artist_image_link : String
  start_time : Nat
deriving Repr, DecidableEq

/-- One show of an artist detail page: src/app.py lines 246-251. -/
structure ArtistShowEntry where
  venue_id : Nat
  venue_name : String
  venue_image_link : String
  start_time : Nat
deriving Repr, DecidableEq

/-- The context of pages/show_venue.html: the venue's attributes plus the
computed show lists and counts (src/app.py lines 128-132). -/
structure VenueDetail where
  venue : VenueRow
  past_shows : List VenueShowEntry
  upcoming_shows : List VenueShowEntry
  past_shows_count : Nat
  upcoming_shows_count : Nat
deriving Repr, DecidableEq

/-- The context of pages/show_artist.html (src/app.py lines 257-261). -/
structure ArtistDetail where
  artist : ArtistRow
  past_shows : List ArtistShowEntry
  upcoming_shows : List ArtistShowEntry
  past_shows_count : Nat
  upcoming_shows_count : Nat
deriving Repr, DecidableEq

/-- One venue of a venue-listing area or of a search result:
per-venue id, name and num_upcoming_shows. -/
structure VenueListEntry where
  id : Nat
  name : String
  num_upcoming_shows : Nat
deriving Repr, DecidableEq

/-- One area of the venue listing: a (city, state) pair with its venues
(src/app.py lines 64-81). -/
structure AreaEntry where
  city : String
  state : String
  venues : List VenueListEntry
deriving Repr, DecidableEq

/-- One row of the shows listing (src/app.py lines 419-428). -/
structure ShowListEntry where
  venue_id : Nat
  venue_name : String
  artist_id : Nat
  artist_name : String
  artist_image_link : String
  start_time : Nat
deriving Repr, DecidableEq

/-- The rendered response of a route: the template it renders (with its
context where a claim needs it) or the redirect it issues. -/
inductive Response where
  | home
  | err404
  | err500
  | venueDetailPage (d : VenueDetail)
  | artistDetailPage (d : ArtistDetail)
  | newVenueForm
  | newShowForm
  | redirectShowArtist (artist_id : Nat)
deriving Repr, DecidableEq

/-- The global 500 handler (src/app.py lines 474-476): a fault no route
handler caught renders the 500 page; a normal return is the route's page. -/
def handleRoute (r : Except PyErr Response) : Response :=
  match r with
  | Except.ok p => p
  | Except.error _ => Response.err500

/-- The format pattern that format_datetime (src/app.py lines 31-37) hands to
babel.dates.format_datetime after its selector dispatch: the "full" and
"medium" selectors are replaced by fixed pattern strings and any other
selector value is passed through unchanged. Parsing the value with dateutil
and the babel rendering itself are the external collaborators of spec
section 6; the selector dispatch is the code under verification. -/
def format_datetime (format : String) : String :=
  if format = "full" then "EEEE MMMM, d, y \x27at\x27 h:mma"
  else if format = "medium" then "EE MM, dd, y h:mma"
  else format

/-- The pattern used when the template gives no selector: the Python default
argument is "medium" (src/app.py line 31). -/
def format_datetime_default : String :=
  format_datetime "medium"

/-- The characters of a string, lower-cased, for case-insensitive matching. -/
def lowerChars (s : String) : List Char :=
  s.toList.map Char.toLower

/-- Whether `pat` occurs as a contiguous sublist of `l`. -/
def hasSubList (pat : List Char) : List Char → Bool
  | [] => pat.isEmpty
  | c :: rest => pat.isPrefixOf (c :: rest) || hasSubList pat rest

/-- name ILIKE the pattern built from the search term wrapped in wildcards
(src/app.py lines 88 and 217): a case-insensitive substring match. -/
def ilike (name : String) (term : String) : Bool :=
  hasSubList (lowerChars term) (lowerChars name)

/-- An id, name and num_upcoming_shows search result entry plus the total
count and the echoed search term (src/app.py lines 89-104). -/
structure SearchResponse where
  count : Nat
  data : List VenueListEntry
  search_term : String
deriving Repr, DecidableEq

/-- search_venues (src/app.py lines 85-105): venues whose name matches the
term case-insensitively, each with the count of Show rows filtered by
Show.venue_id == venue.id and Show.start_time > now. -/
def search_venues (db : DB) (now : Nat) (search_term : String) : SearchResponse :=
  let results := db.venues.filter fun v => ilike v.name search_term
  { count := results.length
    data := results.map fun v =>
      { id := v.id, name := v.name
        num_upcoming_shows :=
          (db.shows.filter fun s => s.venue_id = v.id ∧ now < s.start_time).length }
    search_term := search_term }

/-- search_artists (src/app.py lines 214-234): artists whose name matches the
term case-insensitively. The per-result count filters Show.venue_id ==
result.id (src/app.py line 225) - the venue id column, although the results
are artists. -/
def search_artists (db : DB) (now : Nat) (search_term : String) : SearchResponse :=
  let results := db.artists.filter fun a => ilike a.name search_term
  { count := results.length
    data := results.map fun a =>
      { id := a.id, name := a.name
        num_upcoming_shows :=
          (db.shows.filter fun s => s.venue_id = a.id ∧ now < s.start_time).length }
    search_term := search_term }

/-- State-then-city ordering of (city, state) pairs, the ORDER BY of the
areas query (src/app.py line 60: order_by(Venue.state, Venue.city)). -/
def stateCityLE (p q : String × String) : Prop :=
  p.2 < q.2 ∨ (p.2 = q.2 ∧ p.1 ≤ q.1)

instance : DecidableRel stateCityLE := fun p q => by
  unfold stateCityLE
  infer_instance

instance : IsTotal (String × String) stateCityLE := by
  constructor
  intro p q
  rcases lt_trichotomy p.2 q.2 with h | h | h
  · exact Or.inl (Or.inl h)
  · rcases le_total p.1 q.1 with h1 | h1
    · exact Or.inl (Or.inr ⟨h, h1⟩)
    · exact Or.inr (Or.inr ⟨h.symm, h1⟩)
  · exact Or.inr (Or.inl h)

instance : IsTrans (String × String) stateCityLE := by
  constructor
  intro a b c hab hbc
  rcases hab with h1 | ⟨e1, l1⟩
  · rcases hbc with h2 | ⟨e2, _⟩
    · exact Or.inl (lt_trans h1 h2)
    · exact Or.inl (e2 ▸ h1)
  · rcases hbc with h2 | ⟨e2, l2⟩
    · exact Or.inl (e1 ▸ h2)
    · exact Or.inr ⟨e1.trans e2, le_trans l1 l2⟩

/-- The distinct (city, state) pairs across venues, ordered by state then
city: the areas query of src/app.py lines 57-62. -/
def areasOf (db : DB) : List (String × String) :=
  List.insertionSort stateCityLE (db.venues.map fun v => (v.city, v.state)).dedup

/-- The venues listing (src/app.py lines 54-82): one area per distinct
(city, state) pair, each holding the venues matching that city and state with
num_upcoming_shows counted over venue.shows with start_time > now. -/
def venues (db : DB) (now : Nat) : List AreaEntry :=
  (areasOf db).map fun p =>
    { city := p.1, state := p.2
      venues :=
        (db.venues.filter fun v => v.city = p.1 ∧ v.state = p.2).map fun v =>
          { id := v.id, name := v.name
            num_upcoming_shows :=
              ((venueShows db v).filter fun s => now < s.start_time).length } }

/-- temp_show of the venue detail loop (src/app.py lines 117-122): reads the
show's related artist through the attribute "Artist" (line 119). -/
def venueTempShow (db : DB) (s : ShowRow) : Except PyErr VenueShowEntry :=
  match showAttrArtist db s "Artist" with
  | none => Except.error PyErr.attributeError
  | some a => Except.ok ⟨s.artist_id, a.name, a.image_link, s.start_time⟩

/-- The venue detail loop over venue.shows, stopping at the first fault. -/
def venueEntries (db : DB) : List ShowRow → Except PyErr (List VenueShowEntry)
  | [] => Except.ok []
  | s :: rest =>
    match venueTempShow db s with
    | Except.error e => Except.error e
    | Except.ok e =>
      match venueEntries db rest with
      | Except.error e2 => Except.error e2
      | Except.ok es => Except.ok (e :: es)

/-- show_venue (src/app.py lines 108-134): an absent venue renders the 404
template (with a 200 status); otherwise the venue's shows are split into past
(start_time <= now) and upcoming (start_time > now) with their counts. -/
def show_venue (db : DB) (now : Nat) (venue_id : Nat) : Except PyErr Response :=
  match getVenue db venue_id with
  | none => Except.ok Response.err404
  | some venue =>
    match venueEntries db (venueShows db venue) with
    | Except.error e => Except.error e
    | Except.ok entries =>
      Except.ok (Response.venueDetailPage
        { venue := venue
          past_shows := entries.filter fun e => e.start_time ≤ now
          upcoming_shows := entries.filter fun e => now < e.start_time
          past_shows_count := (entries.filter fun e => e.start_time ≤ now).length
          upcoming_shows_count := (entries.filter fun e => now < e.start_time).length })

/-- temp_show of the artist detail loop (src/app.py lines 246-251): reads the
show's related venue through the attribute "Venue" (line 248). -/
def artistTempShow (db : DB) (s : ShowRow) : Except PyErr ArtistShowEntry :=
  match showAttrVenue db s "Venue" with
  | none => Except.error PyErr.attributeError
  | some v => Except.ok ⟨s.venue_id, v.name, v.image_link, s.start_time⟩

/-- The artist detail loop over artist.shows. -/
def artistEntries (db : DB) : List ShowRow → Except PyErr (List ArtistShowEntry)
  | [] => Except.ok []
  | s :: rest =>
    match artistTempShow db s with
    | Except.error e => Except.error e
    | Except.ok e =>
      match artistEntries db rest with
      | Except.error e2 => Except.error e2
      | Except.ok es => Except.ok (e :: es)

/-- show_artist (src/app.py lines 237-263), mirroring show_venue. -/
def show_artist (db : DB) (now : Nat) (artist_id : Nat) : Except PyErr Response :=
  match getArtist db artist_id with
  | none => Except.ok Response.err404
  | some artist =>
    match artistEntries db (artistShows db artist) with
    | Except.error e => Except.error e
    | Except.ok entries =>
      Except.ok (Response.artistDetailPage
        { artist := artist
          past_shows := entries.filter fun e => e.start_time ≤ now
          upcoming_shows := entries.filter fun e => now < e.start_time
          past_shows_count := (entries.filter fun e => e.start_time ≤ now).length
          upcoming_shows_count := (entries.filter fun e => now < e.start_time).length })

/-- The shows listing (src/app.py lines 414-429): Show joined with Venue and
Artist, one entry per show whose both parents resolve. -/
def shows (db : DB) : List ShowListEntry :=
  db.shows.filterMap fun s =>
    (getVenue db s.venue_id).bind fun v =>
      (getArtist db s.artist_id).map fun a =>
        ⟨s.venue_id, v.name, s.artist_id, a.name, a.image_link, s.start_time⟩

/-- The outcome of a route that tracks an error flag: the database after the
request, the flag, the flashed message and the response. -/
structure FlaggedResult where
  db : DB
  error : Bool
  flash : String
  response : Response
deriving Repr, DecidableEq

/-- delete_venue (src/app.py lines 184-202). The try block evaluates
db.session.get(Venue, venue_id).delete(): on a missing venue the attribute
access on None raises, and on a found venue the Venue model defines no
per-instance delete attribute (venueModelAttrs), so the access raises too;
either way the except branch rolls back and sets the error flag, the session
is closed, the failure message is flashed and the home page rendered. -/
def delete_venue (db : DB) (venue_id : Nat) : FlaggedResult :=
  match getVenue db venue_id with
  | none =>
    { db := db, error := true
      flash := "An error occurred.  Venue " ++ toString venue_id ++ " could not be deleted."
      response := Response.home }
  | some _ =>
    if venueModelAttrs.contains "delete" then
      { db := { db with venues := db.venues.filter fun v => ¬ v.id = venue_id }
        error := false
        flash := "Venue " ++ toString venue_id ++ " was successfully deleted."
        response := Response.home }
    else
      { db := db, error := true
        flash := "An error occurred.  Venue " ++ toString venue_id ++ " could not be deleted."
        response := Response.home }

/-- Modelled from the spec: forms.py is not among the staged sources. The
closed choice set of the state field - the 50 US state abbreviations plus
DC (spec sections 4.2 and 6.5). -/
def usStates : List String :=
  ["AL", "AK", "AZ", "AR", "CA", "CO", "CT", "DE", "DC", "FL", "GA", "HI",
   "ID", "IL", "IN", "IA", "KS", "KY", "LA", "ME", "MD", "MA", "MI", "MN",
   "MS", "MO", "MT", "NE", "NV", "NH", "NJ", "NM", "NY", "NC", "ND", "OH",
   "OK", "OR", "PA", "RI", "SC", "SD", "TN", "TX", "UT", "VT", "VA", "WA",
   "WV", "WI", "WY"]

/-- Modelled from the spec: the closed genre vocabulary of spec section 4.2. -/
def genreChoices : List String :=
  ["Alternative", "Blues", "Classical", "Country", "Electronic", "Folk",
   "Funk", "Hip-Hop", "Heavy Metal", "Instrumental", "Jazz",
   "Musical Theatre", "Pop", "Punk", "R&B", "Reggae", "Rock n Roll",
   "Soul", "Other"]

/-- Modelled from the spec: the phone rule of spec section 4.2 - three
digits, a dash, three digits, a dash, four digits. -/
def phoneOk (s : String) : Bool :=
  match s.toList with
  | [a, b, c, d1, d, e, f, d2, g, h, i, j] =>
    a.isDigit && b.isDigit && c.isDigit && (d1 == '-') &&
    d.isDigit && e.isDigit && f.isDigit && (d2 == '-') &&
    g.isDigit && h.isDigit && i.isDigit && j.isDigit
  | _ => false

/-- Modelled from the spec: forms.py is not among the staged sources, and
spec section 4.2 requires an optional URL field, when present, to be a
syntactically valid URL; modelled as carrying an http or https scheme. The
claims settled here never turn on the exact URL syntax. -/
def validURL (s : String) : Bool :=
  s.startsWith "http://" || s.startsWith "https://"

/-- Modelled from the spec: the submitted fields of the VenueForm (spec
section 4.2). Optional text fields submit the empty string when blank; the
seeking_talent checkbox is true iff its key was present in the form data. -/
structure VenueFormData where
  name : String
  city : String
  state : String
  address : String
  phone : String
  website_link : String
  facebook_link : String
  image_link : String
  genres : List String
  seeking_talent : Bool
  seeking_description : String
deriving Repr, DecidableEq

/-- Modelled from the spec: the submitted fields of the ShowForm (spec
section 4.2): artist_id, venue_id and start_time, each required, `none`
when absent or not parseable as its type. -/
structure ShowFormData where
  artist_id : Option Nat
  venue_id : Option Nat
  start_time : Option Nat
deriving Repr, DecidableEq

/-- Modelled from the spec: the fixed message of a missing required field. -/
def requiredMsg : String := "This field is required."

/-- Modelled from the spec: the fixed message of a value outside its closed
choice set. -/
def invalidChoiceMsg : String := "Not a valid choice."

/-- Modelled from the spec: the fixed message of a malformed phone number. -/
def phoneMsg : String := "Invalid phone number."

/-- Modelled from the spec: the fixed message of a malformed URL. -/
def urlMsg : String := "Invalid URL."

/-- One entry of form.errors: the field name with its messages, omitted when
the field has none. -/
def fieldErrs (field : String) (msgs : List String) : List (String × List String) :=
  if msgs.isEmpty then [] else [(field, msgs)]

/-- Modelled from the spec: form.errors of the VenueForm - per-field
messages in field order, only failing fields present (spec section 4.2:
required name/city/state/address, state and genres against their closed
sets, optional phone/URL patterns). -/
def venueFormErrors (f : VenueFormData) : List (String × List String) :=
  fieldErrs "name" (if f.name = "" then [requiredMsg] else []) ++
  fieldErrs "city" (if f.city = "" then [requiredMsg] else []) ++
  fieldErrs "state" (if usStates.contains f.state then [] else [invalidChoiceMsg]) ++
  fieldErrs "address" (if f.address = "" then [requiredMsg] else []) ++
  fieldErrs "phone" (if f.phone = "" || phoneOk f.phone then [] else [phoneMsg]) ++
  fieldErrs "image_link" (if f.image_link = "" || validURL f.image_link then [] else [urlMsg]) ++
  fieldErrs "genres"
    (if f.genres.isEmpty then [requiredMsg]
     else if f.genres.all genreChoices.contains then [] else [invalidChoiceMsg]) ++
  fieldErrs "facebook_link" (if f.facebook_link = "" || validURL f.facebook_link then [] else [urlMsg]) ++
  fieldErrs "website_link" (if f.website_link = "" || validURL f.website_link then [] else [urlMsg])

/-- Modelled from the spec: VenueForm.validate() succeeds iff no field
collected an error. -/
def venueFormValidate (f : VenueFormData) : Bool :=
  (venueFormErrors f).isEmpty

/-- Modelled from the spec: form.errors of the ShowForm - its three
required fields. -/
def showFormErrors (f : ShowFormData) : List (String × List String) :=
  fieldErrs "artist_id" (if f.artist_id.isSome then [] else [requiredMsg]) ++
  fieldErrs "venue_id" (if f.venue_id.isSome then [] else [requiredMsg]) ++
  fieldErrs "start_time" (if f.start_time.isSome then [] else [requiredMsg])

/-- Modelled from the spec: ShowForm.validate() succeeds iff every required
field is present. -/
def showFormValidate (f : ShowFormData) : Bool :=
  f.artist_id.isSome && f.venue_id.isSome && f.start_time.isSome

/-- The "field: message" strings of the aggregated validation flash
(src/app.py lines 175-178). -/
def errorStrings (errs : List (String × List String)) : List String :=
  errs.flatMap fun fe => fe.2.map fun m => fe.1 ++ ": " ++ m

/-- The aggregated validation-failure flash message (src/app.py line 179). -/
def errorFlash (errs : List (String × List String)) : String :=
  "Please fix the following errors: " ++ String.intercalate ", " (errorStrings errs)

/-- The outcome of a create submission: the database after the request,
whether db.session.close() ran, the flashed message and the rendered page. -/
structure SubmissionResult where
  db : DB
  sessionClosed : Bool
  flash : String
  response : Response
deriving Repr, DecidableEq

/-- The Venue constructed from the validated form fields (src/app.py lines
151-163); the id is the storage-assigned surrogate key. -/
def venueFromForm (f : VenueFormData) (newId : Nat) : VenueRow :=
  { id := newId, name := f.name, genres := f.genres, address := f.address
    city := f.city, state := f.state, phone := f.phone
    website := f.website_link, facebook_link := f.facebook_link
    seeking_talent := f.seeking_talent
    seeking_description := f.seeking_description, image_link := f.image_link }

/-- create_venue_submission (src/app.py lines 146-182). `raisesValueError`
says whether the construction/commit raises a ValueError; the except branch
rolls back (leaving the database unchanged), the finally branch closes the
session, and the success flash and home render at lines 172-173 run after
the try statement whether or not the except branch ran. On validation
failure the aggregated errors are flashed and a fresh empty form
redisplayed (lines 175-181) without touching the session. -/
def create_venue_submission (db : DB) (f : VenueFormData) (newId : Nat)
    (raisesValueError : Bool) : SubmissionResult :=
  if venueFormValidate f then
    if raisesValueError then
      { db := db, sessionClosed := true
        flash := "Venue " ++ f.name ++ " was successfully listed!"
        response := Response.home }
    else
      { db := { db with venues := db.venues ++ [venueFromForm f newId] }
        sessionClosed := true
        flash := "Venue " ++ f.name ++ " was successfully listed!"
        response := Response.home }
  else
    { db := db, sessionClosed := false
      flash := errorFlash (venueFormErrors f)
      response := Response.newVenueForm }

/-- The outcome of the create-show submission. A normal completion is
`Except.ok` of the flash and page; a fault the handler did not catch is
`Except.error` (the finally branch closes the session first either way). -/
structure ShowSubmissionResult where
  db : DB
  sessionClosed : Bool
  outcome : Except PyErr (String × Response)
deriving Repr

/-- Inserting a Show row: the relational engine enforces the two foreign
keys of src/models.py lines 49-50 (spec section 3 invariant: both must
reference existing rows), raising IntegrityError otherwise. -/
def insertShow (db : DB) (s : ShowRow) : Except PyErr DB :=
  if (getArtist db s.artist_id).isSome && (getVenue db s.venue_id).isSome then
    Except.ok { db with shows := db.shows ++ [s] }
  else
    Except.error PyErr.integrityError

/-- create_show_submission (src/app.py lines 439-466). Validation (all three
required fields present, per the modelled ShowForm) dispatches between the
try block and the error redisplay. The try block catches only ValueError
(line 451): a caught ValueError still flashes success and renders home,
while any other fault - an IntegrityError in particular - escapes the
handler after the finally branch closes the session. -/
def create_show_submission (db : DB) (f : ShowFormData) (newId : Nat) :
    ShowSubmissionResult :=
  match f.artist_id, f.venue_id, f.start_time with
  | some a, some v, some t =>
    (match insertShow db ⟨newId, v, a, t⟩ with
     | Except.ok db2 =>
       { db := db2, sessionClosed := true
         outcome := Except.ok ("Show was successfully listed!", Response.home) }
     | Except.error PyErr.valueError =>
       { db := db, sessionClosed := true
         outcome := Except.ok ("Show was successfully listed!", Response.home) }
     | Except.error e =>
       { db := db, sessionClosed := true, outcome := Except.error e })
  | _, _, _ =>
    { db := db, sessionClosed := false
      outcome := Except.ok (errorFlash (showFormErrors f), Response.newShowForm) }

/-- Whether the submitted artist_id or venue_id is present but references no
stored row. -/
def danglingRef (db : DB) (f : ShowFormData) : Bool :=
  (match f.artist_id with
   | some a => (getArtist db a).isNone
   | none => false) ||
  (match f.venue_id with
   | some v => (getVenue db v).isNone
   | none => false)

/-- Whether a show-submission outcome completed normally (the handler caught
every fault and rendered a page). -/
def outcomeOk (r : Except PyErr (String × Response)) : Bool :=
  match r with
  | Except.ok _ => true
  | Except.error _ => false

/-- The raw submitted fields the edit-artist submission reads from
request.form (src/app.py lines 292-301); seeking_venue is the presence of
its key. -/
structure EditArtistFormData where
  name : String
  genres : List String
  city : String
  state : String
  phone : String
  website_link : String
  facebook_link : String
  seeking_venue : Bool
  seeking_description : String
  image_link : String
deriving Repr, DecidableEq

/-- The artist record after the in-session overwrite of src/app.py lines
292-301: every mutable attribute replaced from the raw form values, the id
untouched. -/
def editedArtist (a : ArtistRow) (f : EditArtistFormData) : ArtistRow :=
  { a with
    name := f.name, genres := f.genres, city := f.city, state := f.state
    phone := f.phone, website := f.website_link
    facebook_link := f.facebook_link, seeking_venue := f.seeking_venue
    seeking_description := f.seeking_description, image_link := f.image_link }

/-- edit_artist_submission (src/app.py lines 287-313): loads the artist (no
existence check - attribute assignment on None raises into the except
branch), overwrites every field from the raw form values and commits.
`commitFails` says whether the commit faults: then the session rolls back
and the error flag is set. The session closes and the redirect to the
artist detail page issues regardless of the outcome (line 313). -/
def edit_artist_submission (db : DB) (artist_id : Nat) (f : EditArtistFormData)
    (commitFails : Bool) : FlaggedResult :=
  match getArtist db artist_id with
  | none =>
    { db := db, error := true
      flash := "An error occurred.  Artist could not be changed."
      response := Response.redirectShowArtist artist_id }
  | some a =>
    if commitFails then
      { db := db, error := true
        flash := "An error occurred.  Artist could not be changed."
        response := Response.redirectShowArtist artist_id }
    else
      { db := { db with
          artists := db.artists.map fun x =>
            if x.id = artist_id then editedArtist a f else x }
        error := false
        flash := "Artist was successfully updated!"
        response := Response.redirectShowArtist artist_id }

/-! ## Concrete inputs used by witnesses and evaluations -/

/-- The empty database. -/
def emptyDB : DB := ⟨[], [], []⟩

/-- A venue with two shows. -/
def spotVenue : VenueRow :=
  ⟨1, "The Spot", ["Jazz"], "1 Main St", "Reno", "NV", "", "", "", false, "", ""⟩

/-- The artist of both shows. -/
def aylaArtist : ArtistRow :=
  ⟨7, "Ayla", ["Jazz"], "Reno", "NV", "", "", "", false, "", ""⟩

/-- A database where venue 1 has one show at time 5 and one at time 15:
relative to now = 10, one past and one upcoming show. -/
def twoShowVenueDB : DB :=
  { venues := [spotVenue]
    artists := [aylaArtist]
    shows := [⟨1, 1, 7, 5⟩, ⟨2, 1, 7, 15⟩] }

/-- A database where artist 1 has one upcoming show (at time 20, played at
venue 2) and no show row carries venue_id 1. -/
def searchArtistsDB : DB :=
  { venues := []
    artists := [⟨1, "Ayla", ["Jazz"], "Reno", "NV", "", "", "", false, "", ""⟩]
    shows := [⟨1, 2, 1, 20⟩] }

/-- A venue form every modelled rule accepts. -/
def validVenueForm : VenueFormData :=
  ⟨"The Spot", "Reno", "NV", "1 Main St", "", "", "", "", ["Jazz"], false, ""⟩

/-! ## The claims -/

/-- Claim C1, the code evaluated at the failing input: in searchArtistsDB,
artist 1 has exactly one show with artist_id 1 and start_time after now = 10,
yet search_artists reports num_upcoming_shows = 0 for it, because src/app.py
line 225 filters Show.venue_id == result.id instead of Show.artist_id. -/
theorem search_artists_counts_by_venue_id_eval :
    (search_artists searchArtistsDB 10 "ay").data = [⟨1, "Ayla", 0⟩] ∧
    (searchArtistsDB.shows.filter fun s => s.artist_id = 1 ∧ 10 < s.start_time).length = 1 := by
  decide

/-- Claim C2, the code evaluated at the failing input: venue 1 of
twoShowVenueDB has one past and one upcoming show relative to now = 10, and
the venue-detail operation does not produce the one-and-one partition the
claim describes - it raises an attribute fault (show.Artist on src/app.py
line 119, while the backref is "artist") that the 500 handler turns into the
500 page. -/
theorem show_venue_two_shows_attribute_fault_eval :
    show_venue twoShowVenueDB 10 1 = Except.error PyErr.attributeError ∧
    handleRoute (show_venue twoShowVenueDB 10 1) = Response.err500 :=
  ⟨rfl, rfl⟩

/-- Claim C3: a create-venue submission that passes validation but whose
persistence raises a ValueError rolls back (the database is unchanged),
closes the session, and still flashes the success notification and renders
the home page - the failure is not reported to the user
(src/app.py lines 146-173). -/
theorem create_venue_valueError_still_flashes_success (db : DB) (f : VenueFormData)
    (newId : Nat) (hval : venueFormValidate f = true) :
    create_venue_submission db f newId true =
      { db := db, sessionClosed := true
        flash := "Venue " ++ f.name ++ " was successfully listed!"
        response := Response.home } := by
  simp [create_venue_submission, hval]

/-- Claim C3 witness: a concrete valid venue form whose commit raises. -/
theorem create_venue_valueError_still_flashes_success_witness :
    venueFormValidate validVenueForm = true ∧
    create_venue_submission emptyDB validVenueForm 5 true =
      { db := emptyDB, sessionClosed := true
        flash := "Venue " ++ validVenueForm.name ++ " was successfully listed!"
        response := Response.home } :=
  ⟨by decide,
   create_venue_valueError_still_flashes_success emptyDB validVenueForm 5 (by decide)⟩

/-- Claim C4: for every venue id - present or absent - delete_venue takes
its error branch, because the try block invokes a per-instance delete
attribute the Venue model does not define (venueModelAttrs; on a missing
venue the attribute access on None raises instead): the database is
unchanged, the error flag set, the failure notification flashed and the home
page rendered (src/app.py lines 184-202). -/
theorem delete_venue_always_error_branch (db : DB) (venue_id : Nat) :
    delete_venue db venue_id =
      { db := db, error := true
        flash := "An error occurred.  Venue " ++ toString venue_id ++ " could not be deleted."
        response := Response.home } := by
  have hd : "delete" ∉ venueModelAttrs := by decide
  cases h : getVenue db venue_id <;> simp [delete_venue, h, hd]

/-- Claim C6 counterexample: the selector "short" is neither "full" nor
"medium", and format_datetime hands it to babel unchanged rather than using
the medium pattern the claim prescribes for unrecognized selectors. -/
theorem format_datetime_unrecognized_selector_cex :
    format_datetime "short" = "short" ∧
    format_datetime "short" ≠ "EE MM, dd, y h:mma" := by
  decide

/-- Claim C6 as amended: "full" selects the full pattern, "medium" - and the
absent selector, whose Python default is "medium" - selects the medium
pattern, and every other selector value is passed through to the date
formatter unchanged as the format argument. -/
theorem format_datetime_pattern_selection (fmt : String)
    (h1 : fmt ≠ "full") (h2 : fmt ≠ "medium") :
    format_datetime "full" = "EEEE MMMM, d, y \x27at\x27 h:mma" ∧
    format_datetime "medium" = "EE MM, dd, y h:mma" ∧
    format_datetime_default = "EE MM, dd, y h:mma" ∧
    format_datetime fmt = fmt := by
  refine ⟨rfl, rfl, rfl, ?_⟩
  simp [format_datetime, h1, h2]

/-- Claim C6 witness: the amended statement at the selector "short". -/
theorem format_datetime_pattern_selection_witness :
    ("short" : String) ≠ "full" ∧
    (format_datetime "full" = "EEEE MMMM, d, y \x27at\x27 h:mma" ∧
     format_datetime "medium" = "EE MM, dd, y h:mma" ∧
     format_datetime_default = "EE MM, dd, y h:mma" ∧
     format_datetime "short" = "short") :=
  ⟨by decide, format_datetime_pattern_selection "short" (by decide) (by decide)⟩

/-- Claim C5: the detail operations read each show's related records through
the attributes "Artist" and "Venue" (src/app.py lines 119 and 248) while the
model defines the relationship attributes as the lowercase backrefs "artist"
and "venue" (src/models.py lines 19 and 39); hence for an existing venue or
artist the detail operation raises an attribute fault - which the global
handler renders as the 500 page - exactly when the entity has at least one
show, and succeeds (with empty show lists) exactly when it has none. -/
theorem detail_pages_attribute_fault_iff_shows_nonempty
    (db : DB) (now : Nat) (venue_id artist_id : Nat) (v : VenueRow) (a : ArtistRow)
    (hv : getVenue db venue_id = some v) (ha : getArtist db artist_id = some a) :
    (show_venue db now venue_id = Except.error PyErr.attributeError ↔ venueShows db v ≠ []) ∧
    (show_venue db now venue_id =
        Except.ok (Response.venueDetailPage ⟨v, [], [], 0, 0⟩) ↔ venueShows db v = []) ∧
    (handleRoute (show_venue db now venue_id) = Response.err500 ↔ venueShows db v ≠ []) ∧
    (show_artist db now artist_id = Except.error PyErr.attributeError ↔ artistShows db a ≠ []) ∧
    (show_artist db now artist_id =
        Except.ok (Response.artistDetailPage ⟨a, [], [], 0, 0⟩) ↔ artistShows db a = []) ∧
    (handleRoute (show_artist db now artist_id) = Response.err500 ↔ artistShows db a ≠ []) := by
  have hvshow : ∀ s rest, venueEntries db (s :: rest) = Except.error PyErr.attributeError := by
    intro s rest
    simp [venueEntries, venueTempShow, showAttrArtist]
  have hashow : ∀ s rest, artistEntries db (s :: rest) = Except.error PyErr.attributeError := by
    intro s rest
    simp [artistEntries, artistTempShow, showAttrVenue]
  have hvcase : (show_venue db now venue_id = Except.error PyErr.attributeError ↔ venueShows db v ≠ []) ∧
      (show_venue db now venue_id = Except.ok (Response.venueDetailPage ⟨v, [], [], 0, 0⟩) ↔ venueShows db v = []) ∧
      (handleRoute (show_venue db now venue_id) = Response.err500 ↔ venueShows db v ≠ []) := by
    cases hs : venueShows db v with
    | nil =>
      have hres : show_venue db now venue_id = Except.ok (Response.venueDetailPage ⟨v, [], [], 0, 0⟩) := by
        simp [show_venue, hv, hs, venueEntries]
      refine ⟨?_, ?_, ?_⟩ <;> simp [hres, handleRoute]
    | cons s rest =>
      have hres : show_venue db now venue_id = Except.error PyErr.attributeError := by
        simp [show_venue, hv, hs, hvshow]
      refine ⟨?_, ?_, ?_⟩ <;> simp [hres, handleRoute]
  have hacase : (show_artist db now artist_id = Except.error PyErr.attributeError ↔ artistShows db a ≠ []) ∧
      (show_artist db now artist_id = Except.ok (Response.artistDetailPage ⟨a, [], [], 0, 0⟩) ↔ artistShows db a = []) ∧
      (handleRoute (show_artist db now artist_id) = Response.err500 ↔ artistShows db a ≠ []) := by
    cases hs : artistShows db a with
    | nil =>
      have hres : show_artist db now artist_id = Except.ok (Response.artistDetailPage ⟨a, [], [], 0, 0⟩) := by
        simp [show_artist, ha, hs, artistEntries]
      refine ⟨?_, ?_, ?_⟩ <;> simp [hres, handleRoute]
    | cons s rest =>
      have hres : show_artist db now artist_id = Except.error PyErr.attributeError := by
        simp [show_artist, ha, hs, hashow]
      refine ⟨?_, ?_, ?_⟩ <;> simp [hres, handleRoute]
  exact ⟨hvcase.1, hvcase.2.1, hvcase.2.2, hacase.1, hacase.2.1, hacase.2.2⟩

/-- Claim C5 witness: venue 1 and artist 7 of twoShowVenueDB both exist and
both have shows. -/
theorem detail_pages_attribute_fault_iff_shows_nonempty_witness :
    getVenue twoShowVenueDB 1 = some spotVenue ∧
    getArtist twoShowVenueDB 7 = some aylaArtist ∧
    ((show_venue twoShowVenueDB 10 1 = Except.error PyErr.attributeError ↔
        venueShows twoShowVenueDB spotVenue ≠ []) ∧
     (show_venue twoShowVenueDB 10 1 =
        Except.ok (Response.venueDetailPage ⟨spotVenue, [], [], 0, 0⟩) ↔
        venueShows twoShowVenueDB spotVenue = []) ∧
     (handleRoute (show_venue twoShowVenueDB 10 1) = Response.err500 ↔
        venueShows twoShowVenueDB spotVenue ≠ []) ∧
     (show_artist twoShowVenueDB 10 7 = Except.error PyErr.attributeError ↔
        artistShows twoShowVenueDB aylaArtist ≠ []) ∧
     (show_artist twoShowVenueDB 10 7 =
        Except.ok (Response.artistDetailPage ⟨aylaArtist, [], [], 0, 0⟩) ↔
        artistShows twoShowVenueDB aylaArtist = []) ∧
     (handleRoute (show_artist twoShowVenueDB 10 7) = Response.err500 ↔
        artistShows twoShowVenueDB aylaArtist ≠ [])) :=
  ⟨by decide, by decide,
   detail_pages_attribute_fault_iff_shows_nonempty twoShowVenueDB 10 1 7
     spotVenue aylaArtist (by decide) (by decide)⟩

/-- Replacing the matching artist row under find?: updating every row whose
id matches leaves the lookup returning the updated row when a row matched
before. -/
lemma find_update_of_find (l : List ArtistRow) (aid : Nat) (u : ArtistRow) (a : ArtistRow)
    (hu : u.id = aid) (h : l.find? (fun x => x.id = aid) = some a) :
    (l.map fun x => if x.id = aid then u else x).find? (fun x => x.id = aid) = some u := by
  induction l with
  | nil => simp at h
  | cons x xs ih =>
    rw [List.map_cons]
    by_cases hx : x.id = aid
    · rw [if_pos hx, List.find?_cons_of_pos _ (by simp [hu])]
    · rw [if_neg hx, List.find?_cons_of_neg _ (by simp [hx])]
      rw [List.find?_cons_of_neg _ (by simp [hx])] at h
      exact ih h

/-- Claim C10: for an existing artist id, the edit-artist submission
overwrites every mutable attribute (name, genres, city, state, phone,
website, facebook_link, seeking_venue, seeking_description, image_link) from
the raw submitted form values, leaves the artist's id, the other tables and
the artist's association to its shows unchanged, and redirects to that
artist's detail page whether the commit succeeds or fails
(src/app.py lines 287-313). -/
theorem edit_artist_overwrites_all_fields (db : DB) (artist_id : Nat)
    (f : EditArtistFormData) (a : ArtistRow) (cf : Bool)
    (ha : getArtist db artist_id = some a) :
    (edit_artist_submission db artist_id f cf).response = Response.redirectShowArtist artist_id ∧
    (edit_artist_submission db artist_id f true).db = db ∧
    getArtist (edit_artist_submission db artist_id f false).db artist_id =
      some ⟨a.id, f.name, f.genres, f.city, f.state, f.phone, f.website_link,
            f.facebook_link, f.seeking_venue, f.seeking_description, f.image_link⟩ ∧
    (edit_artist_submission db artist_id f false).db.shows = db.shows ∧
    (edit_artist_submission db artist_id f false).db.venues = db.venues ∧
    artistShows (edit_artist_submission db artist_id f false).db (editedArtist a f) =
      artistShows db a := by
  have haid : a.id = artist_id := by
    have := List.find?_some ha
    simpa using this
  have hedit : editedArtist a f =
      ⟨a.id, f.name, f.genres, f.city, f.state, f.phone, f.website_link,
       f.facebook_link, f.seeking_venue, f.seeking_description, f.image_link⟩ := rfl
  refine ⟨?_, ?_, ?_, ?_, ?_, ?_⟩
  · cases cf <;> simp [edit_artist_submission, ha]
  · simp [edit_artist_submission, ha]
  · rw [← hedit]
    simp only [edit_artist_submission, ha]
    exact find_update_of_find db.artists artist_id (editedArtist a f) a
      (by rw [hedit]; exact haid) ha
  · simp [edit_artist_submission, ha]
  · simp [edit_artist_submission, ha]
  · simp [edit_artist_submission, ha, artistShows, editedArtist]

/-- The artist edited in the claim C10 witness. -/
def oldArtist : ArtistRow :=
  ⟨1, "Old Name", ["Jazz"], "Reno", "NV", "", "", "", false, "", ""⟩

/-- A database holding oldArtist and one of its shows. -/
def editDB : DB :=
  { venues := [], artists := [oldArtist], shows := [⟨1, 2, 1, 5⟩] }

/-- The raw form values of the claim C10 witness. -/
def editForm : EditArtistFormData :=
  ⟨"New Name", ["Blues", "Soul"], "Sparks", "CA", "123-456-7890",
   "http://n.example", "http://fb.example", true, "desc", "http://img.example"⟩

/-- Claim C10 witness: artist 1 of editDB edited with editForm. -/
theorem edit_artist_overwrites_all_fields_witness :
    getArtist editDB 1 = some oldArtist ∧
    ((edit_artist_submission editDB 1 editForm true).response = Response.redirectShowArtist 1 ∧
     (edit_artist_submission editDB 1 editForm true).db = editDB ∧
     getArtist (edit_artist_submission editDB 1 editForm false).db 1 =
       some ⟨oldArtist.id, editForm.name, editForm.genres, editForm.city, editForm.state,
             editForm.phone, editForm.website_link, editForm.facebook_link,
             editForm.seeking_venue, editForm.seeking_description, editForm.image_link⟩ ∧
     (edit_artist_submission editDB 1 editForm false).db.shows = editDB.shows ∧
     (edit_artist_submission editDB 1 editForm false).db.venues = editDB.venues ∧
     artistShows (edit_artist_submission editDB 1 editForm false).db
        (editedArtist oldArtist editForm) = artistShows editDB oldArtist) :=
  ⟨by decide,
   edit_artist_overwrites_all_fields editDB 1 editForm oldArtist true (by decide)⟩

/-- A show form whose ids reference no stored row of the empty database. -/
def danglingShowForm : ShowFormData := ⟨some 1, some 1, some 10⟩

/-- Claim C8 counterexample: a well-formed submission with dangling ids
passes validation, and the referential-integrity fault is NOT caught by the
operation - it escapes as an IntegrityError (the handler catches only
ValueError, src/app.py line 451) instead of being rolled back inside a
completed render. -/
theorem create_show_dangling_ref_uncaught_cex :
    showFormValidate danglingShowForm = true ∧
    outcomeOk (create_show_submission emptyDB danglingShowForm 1).outcome = false ∧
    (create_show_submission emptyDB danglingShowForm 1).outcome =
      Except.error PyErr.integrityError :=
  ⟨by decide, by decide, rfl⟩

/-- Claim C8 as amended: a create-show submission whose artist_id or
venue_id is present but references no existing row either fails validation
or hits a referential-integrity fault the operation's ValueError handler
does not catch; in either case the database is unchanged and no new show
appears in a subsequent list-shows result. -/
theorem create_show_dangling_ref_no_insert (db : DB) (f : ShowFormData) (newId : Nat)
    (h : danglingRef db f = true) :
    (create_show_submission db f newId).db = db ∧
    shows (create_show_submission db f newId).db = shows db ∧
    (showFormValidate f = false ∨
     (create_show_submission db f newId).outcome = Except.error PyErr.integrityError) := by
  have core : (create_show_submission db f newId).db = db ∧
      (showFormValidate f = false ∨
       (create_show_submission db f newId).outcome = Except.error PyErr.integrityError) := by
    cases ha : f.artist_id with
    | none =>
      exact ⟨by simp [create_show_submission, ha], Or.inl (by simp [showFormValidate, ha])⟩
    | some a =>
      cases hb : f.venue_id with
      | none =>
        exact ⟨by simp [create_show_submission, ha, hb], Or.inl (by simp [showFormValidate, hb])⟩
      | some v =>
        cases hc : f.start_time with
        | none =>
          exact ⟨by simp [create_show_submission, ha, hb, hc], Or.inl (by simp [showFormValidate, hc])⟩
        | some t =>
          have hfalse : ((getArtist db a).isSome && (getVenue db v).isSome) = false := by
            have h2 := h
            simp [danglingRef, ha, hb] at h2
            rcases h2 with h2 | h2 <;> simp [h2]
          have hins : insertShow db ⟨newId, v, a, t⟩ = Except.error PyErr.integrityError := by
            simp [insertShow, hfalse]
          constructor
          · simp [create_show_submission, ha, hb, hc, hins]
          · exact Or.inr (by simp [create_show_submission, ha, hb, hc, hins])
  exact ⟨core.1, by rw [core.1], core.2⟩

/-- Claim C8 witness: the dangling submission against the empty database. -/
theorem create_show_dangling_ref_no_insert_witness :
    danglingRef emptyDB danglingShowForm = true ∧
    ((create_show_submission emptyDB danglingShowForm 1).db = emptyDB ∧
     shows (create_show_submission emptyDB danglingShowForm 1).db = shows emptyDB ∧
     (showFormValidate danglingShowForm = false ∨
      (create_show_submission emptyDB danglingShowForm 1).outcome =
        Except.error PyErr.integrityError)) :=
  ⟨by decide, create_show_dangling_ref_no_insert emptyDB danglingShowForm 1 (by decide)⟩

/-- Claim C9: a create submission that fails validation persists nothing,
flashes one aggregated message built from the per-field "field: message"
strings joined by ", " (errorFlash), and redisplays a fresh emptied form;
and submitting the identical failing input again yields the very same
result - same message, nothing persisted - for both the venue and the show
create operations (src/app.py lines 174-181 and 459-466). -/
theorem create_invalid_submission_idempotent (db : DB) (vf : VenueFormData)
    (sf : ShowFormData) (nId nId2 : Nat) (pf pf2 : Bool)
    (hv : venueFormValidate vf = false) (hs : showFormValidate sf = false) :
    create_venue_submission db vf nId pf =
      { db := db, sessionClosed := false, flash := errorFlash (venueFormErrors vf)
        response := Response.newVenueForm } ∧
    create_venue_submission (create_venue_submission db vf nId pf).db vf nId2 pf2 =
      create_venue_submission db vf nId pf ∧
    (create_show_submission db sf nId).db = db ∧
    (create_show_submission db sf nId).outcome =
      Except.ok (errorFlash (showFormErrors sf), Response.newShowForm) ∧
    (create_show_submission (create_show_submission db sf nId).db sf nId2).outcome =
      (create_show_submission db sf nId).outcome := by
  have h1 : ∀ (n : Nat) (p : Bool), create_venue_submission db vf n p =
      { db := db, sessionClosed := false, flash := errorFlash (venueFormErrors vf)
        response := Response.newVenueForm } := by
    intro n p
    simp [create_venue_submission, hv]
  have h2 : ∀ (d : DB) (n : Nat), create_show_submission d sf n =
      { db := d, sessionClosed := false
        outcome := Except.ok (errorFlash (showFormErrors sf), Response.newShowForm) } := by
    intro d n
    cases ha : sf.artist_id <;> cases hb : sf.venue_id <;> cases hc : sf.start_time <;>
      simp_all [create_show_submission, showFormValidate]
  refine ⟨h1 nId pf, ?_, ?_, ?_, ?_⟩
  · rw [h1 nId pf]
    exact h1 nId2 pf2
  · rw [h2 db nId]
  · rw [h2 db nId]
  · rw [h2 db nId, h2 db nId2]

/-- A venue form with an empty required name field. -/
def invalidVenueForm : VenueFormData :=
  ⟨"", "Reno", "NV", "1 Main St", "", "", "", "", ["Jazz"], false, ""⟩

/-- A show form missing its required artist_id. -/
def invalidShowForm : ShowFormData := ⟨none, some 1, some 5⟩

/-- Claim C9 witness: the two invalid forms submitted twice against the
empty database. -/
theorem create_invalid_submission_idempotent_witness :
    venueFormValidate invalidVenueForm = false ∧
    showFormValidate invalidShowForm = false ∧
    (create_venue_submission emptyDB invalidVenueForm 1 false =
      { db := emptyDB, sessionClosed := false
        flash := errorFlash (venueFormErrors invalidVenueForm)
        response := Response.newVenueForm } ∧
     create_venue_submission (create_venue_submission emptyDB invalidVenueForm 1 false).db
        invalidVenueForm 2 true =
       create_venue_submission emptyDB invalidVenueForm 1 false ∧
     (create_show_submission emptyDB invalidShowForm 1).db = emptyDB ∧
     (create_show_submission emptyDB invalidShowForm 1).outcome =
       Except.ok (errorFlash (showFormErrors invalidShowForm), Response.newShowForm) ∧
     (create_show_submission (create_show_submission emptyDB invalidShowForm 1).db
        invalidShowForm 2).outcome =
       (create_show_submission emptyDB invalidShowForm 1).outcome) :=
  ⟨by decide, by decide,
   create_invalid_submission_idempotent emptyDB invalidVenueForm invalidShowForm
     1 2 false true (by decide) (by decide)⟩

/-- The areas list holds no duplicate (city, state) pair. -/
lemma areasOf_nodup (db : DB) : (areasOf db).Nodup :=
  (List.perm_insertionSort stateCityLE _).nodup_iff.mpr
    (List.nodup_dedup (db.venues.map fun v => (v.city, v.state)))

/-- The areas list is ordered by state then city. -/
lemma areasOf_sorted (db : DB) : List.Sorted stateCityLE (areasOf db) :=
  List.sorted_insertionSort stateCityLE _

/-- A pair is an area exactly when some stored venue carries it. -/
lemma mem_areasOf (db : DB) (p : String × String) :
    p ∈ areasOf db ↔ ∃ v ∈ db.venues, v.city = p.1 ∧ v.state = p.2 := by
  unfold areasOf
  rw [(List.perm_insertionSort _ _).mem_iff, List.mem_dedup, List.mem_map]
  constructor
  · rintro ⟨v, hmem, rfl⟩
    exact ⟨v, hmem, rfl, rfl⟩
  · rintro ⟨v, hmem, h1, h2⟩
    exact ⟨v, hmem, by rw [h1, h2]⟩

/-- The (city, state) pairs of the produced areas are exactly the areas
query's result. -/
lemma venues_map_pairs (db : DB) (now : Nat) :
    ((venues db now).map fun ar => (ar.city, ar.state)) = areasOf db := by
  unfold venues
  rw [List.map_map]
  exact List.map_id'' (fun p => rfl) _

/-- Every produced area comes from an areas-query pair and holds the mapped
filter of the full venue list. -/
lemma area_of_mem_venues (db : DB) (now : Nat) (ar : AreaEntry) (h : ar ∈ venues db now) :
    (ar.city, ar.state) ∈ areasOf db ∧
    ar.venues = (db.venues.filter fun v => v.city = ar.city ∧ v.state = ar.state).map fun v =>
      { id := v.id, name := v.name
        num_upcoming_shows := ((venueShows db v).filter fun s => now < s.start_time).length } := by
  unfold venues at h
  rw [List.mem_map] at h
  obtain ⟨p, hp, rfl⟩ := h
  exact ⟨hp, rfl⟩

/-- Claim C7: the venues listing yields one area per distinct (city, state)
pair over the stored venues - without duplicates, ordered by state then
city, and covering exactly the pairs that occur; each area's venues are
exactly the stored venues matching its pair, each carrying
num_upcoming_shows equal to the number of its shows with start_time
strictly after the current time (src/app.py lines 54-82). -/
theorem venues_areas_grouping_correct (db : DB) (now : Nat) :
    ((venues db now).map fun ar => (ar.city, ar.state)) = areasOf db ∧
    ((venues db now).map fun ar => (ar.city, ar.state)).Nodup ∧
    List.Sorted stateCityLE ((venues db now).map fun ar => (ar.city, ar.state)) ∧
    (∀ p : String × String,
      (p ∈ (venues db now).map fun ar => (ar.city, ar.state)) ↔
        ∃ v ∈ db.venues, v.city = p.1 ∧ v.state = p.2) ∧
    (∀ ar ∈ venues db now, ∀ e ∈ ar.venues, ∃ v ∈ db.venues,
      v.id = e.id ∧ v.name = e.name ∧ v.city = ar.city ∧ v.state = ar.state ∧
      e.num_upcoming_shows = ((venueShows db v).filter fun s => now < s.start_time).length) ∧
    (∀ ar ∈ venues db now, ∀ v ∈ db.venues, v.city = ar.city → v.state = ar.state →
      ∃ e ∈ ar.venues, e.id = v.id ∧ e.name = v.name ∧
        e.num_upcoming_shows = ((venueShows db v).filter fun s => now < s.start_time).length) := by
  refine ⟨venues_map_pairs db now, ?_, ?_, ?_, ?_, ?_⟩
  · rw [venues_map_pairs db now]
    exact areasOf_nodup db
  · rw [venues_map_pairs db now]
    exact areasOf_sorted db
  · intro p
    rw [venues_map_pairs db now]
    exact mem_areasOf db p
  · intro ar har e he
    obtain ⟨hp, hvs⟩ := area_of_mem_venues db now ar har
    rw [hvs, List.mem_map] at he
    obtain ⟨v, hv, rfl⟩ := he
    rw [List.mem_filter] at hv
    obtain ⟨hmem, hcs⟩ := hv
    simp only [decide_eq_true_eq] at hcs
    exact ⟨v, hmem, rfl, rfl, hcs.1, hcs.2, rfl⟩
  · intro ar har v hmem hc hs
    obtain ⟨hp, hvs⟩ := area_of_mem_venues db now ar har
    rw [hvs]
    refine ⟨{ id := v.id, name := v.name
              num_upcoming_shows := ((venueShows db v).filter fun s => now < s.start_time).length },
            ?_, rfl, rfl, rfl⟩
    rw [List.mem_map]
    refine ⟨v, ?_, rfl⟩
    rw [List.mem_filter]
    exact ⟨hmem, by simp [hc, hs]⟩

end Fyyur
